import Mathlib

/-!
Verification development for the ytb-down backend (`app.py`), a Flask
service wrapping yt-dlp.  The definitions below are a shallow embedding of
the job-tracking subsystem: the `DownloadProgress` record, the yt-dlp
progress hook, the quality-based format-selection strings, the worker
error translation and temp-file cleanup, the filename-collision loop, the
concurrency gate of `POST /api/download`, the metadata fetcher
`get_video_info`, and the table of routes registered by the `@app.route`
decorators present in the file.

Python floats are modelled as rationals, Python strings as Lean strings
(manipulated through structurally recursive `List Char` helpers so that
every definition evaluates in the kernel), and optional/`None`-able values
as `Option`.
-/

/-! ## String helpers (structural recursion over `List Char`) -/

/-- Check whether the first list is a prefix of the second. -/
def isPfxCh : List Char → List Char → Bool
  | [], _ => true
  | _ :: _, [] => false
  | a :: as, b :: bs => a == b && isPfxCh as bs

/-- Substring test: does `needle` occur contiguously inside `hay`?
Models the Python `needle in hay` operator on strings. -/
def containsSubCh : List Char → List Char → Bool
  | [], needle => needle.isEmpty
  | h :: t, needle => isPfxCh needle (h :: t) || containsSubCh t needle

/-- Substring test on `String`, models Python `needle in hay`. -/
def containsStr (hay needle : String) : Bool :=
  containsSubCh hay.data needle.data

/-- ASCII lower-casing of one character, as Python `str.lower` does for
ASCII input (the only case the error messages exercise). -/
def lcChar (c : Char) : Char :=
  if 'A' ≤ c && c ≤ 'Z' then Char.ofNat (c.toNat + 32) else c

/-- Models Python `s.lower()` (ASCII fragment). -/
def lcStr (s : String) : String := ⟨s.data.map lcChar⟩

/-- Python whitespace characters stripped by `str.strip()`. -/
def isPyWsCh (c : Char) : Bool :=
  c == ' ' || c == '\t' || c == '\n' || c == '\r' ||
    c == Char.ofNat 11 || c == Char.ofNat 12

/-- Models Python `s.strip()`. -/
def pyStrip (s : String) : String :=
  ⟨((s.data.dropWhile isPyWsCh).reverse.dropWhile isPyWsCh).reverse⟩

/-- Models Python `s.replace("%", "")`: removes every percent sign. -/
def remPercent (s : String) : String :=
  ⟨s.data.filter (fun c => !(c == '%'))⟩

/-- First `n` characters of a string, models Python slicing `s[:n]`. -/
def strTake (s : String) (n : Nat) : String := ⟨s.data.take n⟩

/-- Models `pathlib.Path(p).name` for POSIX paths: the part after the
last slash. -/
def pyBasename (p : String) : String :=
  ⟨(p.data.reverse.takeWhile (fun c => !(c == '/'))).reverse⟩

/-- Split a character list on a separator character (every occurrence). -/
def splitOnCh (c : Char) : List Char → List (List Char)
  | [] => [[]]
  | x :: xs =>
    let r := splitOnCh c xs
    if x == c then [] :: r
    else
      match r with
      | [] => [[x]]
      | y :: ys => (x :: y) :: ys

/-- Split a string on `'/'`; used to decompose yt-dlp format chains into
their `/`-separated alternatives. -/
def splitSlash (s : String) : List String :=
  (splitOnCh '/' s.data).map String.mk

/-- Decimal digit test. -/
def isDigitCh (c : Char) : Bool := '0' ≤ c && c ≤ '9'

/-- Value of a digit string, most significant first. -/
def digitsVal (ds : List Char) : Nat :=
  ds.foldl (fun acc c => acc * 10 + (c.toNat - 48)) 0

/-- Parse an unsigned decimal literal (`"12"`, `"12.5"`, `"12."`, `".5"`). -/
def parseUDec (cs : List Char) : Option ℚ :=
  let ip := cs.takeWhile isDigitCh
  let rest := cs.dropWhile isDigitCh
  match rest with
  | [] => if ip.isEmpty then none else some (digitsVal ip : ℚ)
  | '.' :: rest2 =>
    let fp := rest2.takeWhile isDigitCh
    let rest3 := rest2.dropWhile isDigitCh
    if rest3.isEmpty && !(ip.isEmpty && fp.isEmpty) then
      some ((digitsVal ip : ℚ) + (digitsVal fp : ℚ) / (10 : ℚ) ^ fp.length)
    else none
  | _ => none

/-- Model of Python `float(s)` restricted to optionally signed decimal
literals — the shape of yt-dlp percent strings after stripping and
removing `%`.  Anything else fails (`none`), as `float` raises
`ValueError` which the hook swallows. -/
def pyFloat? (s : String) : Option ℚ :=
  match s.data with
  | '+' :: cs => parseUDec cs
  | '-' :: cs => (parseUDec cs).map (fun q => -q)
  | cs => parseUDec cs

/-! ## Job Record (`DownloadProgress`, app.py lines 36-45) -/

/-- The `status` strings a Job Record can hold. -/
inductive Status where
  | starting
  | downloading
  | processing
  | completed
  | error
deriving DecidableEq

/-- Embedding of the `DownloadProgress` class: one Job Record.
`progress` is a rational modelling the Python float; `completed_at` is a
rational timestamp (hours). -/
structure DownloadProgress where
  status : Status
  progress : ℚ
  filename : Option String
  error : Option String
  completed_at : Option ℚ
  file_path : Option String
deriving DecidableEq

/-- The record as `__init__` builds it (status `"starting"`, progress 0,
all other fields `None`). -/
def initProgress : DownloadProgress :=
  ⟨Status.starting, 0, none, none, none, none⟩

/-! ## Progress hook (app.py lines 47-73) -/

/-- The fields of the dict yt-dlp passes to a progress hook that the hook
reads.  `total_bytes` is `none` when the key is absent or holds a falsy
value `None` (Python treats both the same in `"total_bytes" in d and
d["total_bytes"]`, except for present-and-zero, which is `some 0` here and
also falls through).  `downloaded_bytes` is always present in
`downloading` events and `hfilename` in `finished` events, per the yt-dlp
hook contract. -/
structure HookDict where
  hstatus : String
  downloaded_bytes : ℚ
  total_bytes : Option ℚ
  percent_str : Option String
  hfilename : String
  herror : Option String
deriving DecidableEq

/-- The `elif "_percent_str" in d:` fallback of the downloading branch:
parse the percent string; on parse failure (`ValueError`) or an absent
key, leave `progress` unchanged. -/
def percentFb (d : HookDict) (s : DownloadProgress) : DownloadProgress :=
  match d.percent_str with
  | some ps =>
    match pyFloat? (remPercent (pyStrip ps)) with
    | some q => { s with progress := q }
    | none => s
  | none => s

/-- Embedding of `progress_hook` (the guard `download_id not in
active_downloads` is handled at the registry level; this is the per-record
mutation). -/
def progress_hook (d : HookDict) (s : DownloadProgress) : DownloadProgress :=
  if d.hstatus = "downloading" then
    let s1 :=
      match d.total_bytes with
      | some t =>
        if t = 0 then percentFb d s
        else { s with progress := d.downloaded_bytes / t * 100 }
      | none => percentFb d s
    { s1 with status := Status.downloading }
  else if d.hstatus = "finished" then
    { s with status := Status.processing, progress := 90,
             filename := some (pyBasename d.hfilename) }
  else if d.hstatus = "error" then
    { s with status := Status.error,
             error := some (d.herror.getD "Unknown error") }
  else s

/-! ## Format selection (app.py lines 152-199) -/

/-- The `quality == "best"` chain (lines 159-165; adjacent Python string
literals concatenate). -/
def bestChain : String :=
  "bestvideo[height>=2160]+bestaudio[ext=m4a]/bestvideo[height>=2160]+bestaudio/bestvideo[height>=1440]+bestaudio[ext=m4a]/bestvideo[height>=1440]+bestaudio/bestvideo[height>=1080]+bestaudio[ext=m4a]/bestvideo[height>=1080]+bestaudio/bestvideo[height>=720]+bestaudio[ext=m4a]/bestvideo[height>=720]+bestaudio/best[height>=1080]/best[height>=720]/best"

/-- The `quality == "audio"` chain (lines 167-170). -/
def audioChain : String :=
  "bestaudio[ext=m4a][abr>=192]/bestaudio[abr>=192]/bestaudio[ext=m4a]/bestaudio/best[height<=480]"

/-- The `quality == "1080p"` chain (lines 177-184). -/
def chain1080 : String :=
  "bestvideo[height<=1080][height>=1080]+bestaudio[ext=m4a]/bestvideo[height<=1080][height>=1080]+bestaudio/best[height<=1080][height>=1080]/bestvideo[height<=1080]+bestaudio[ext=m4a]/bestvideo[height<=1080]+bestaudio/best[height<=1080]/best"

/-- The `quality == "720p"` chain (lines 186-193). -/
def chain720 : String :=
  "bestvideo[height<=720][height>=720]+bestaudio[ext=m4a]/bestvideo[height<=720][height>=720]+bestaudio/best[height<=720][height>=720]/bestvideo[height<=720]+bestaudio[ext=m4a]/bestvideo[height<=720]+bestaudio/best[height<=720]/best"

/-- Quality-based selection (the `else` side of `if custom_format:`). -/
def selectByQuality (quality : String) : String :=
  if quality = "best" then bestChain
  else if quality = "audio" then audioChain
  else if quality = "1080p" then chain1080
  else if quality = "720p" then chain720
  else "best"

/-- The format string `download_video` puts into `ydl_opts["format"]`.
Python tests `if custom_format:` — truthiness, so an empty custom string
also falls through to quality-based selection. -/
def selectFormat (quality : String) (customFormat : Option String) : String :=
  match customFormat with
  | some cf => if cf = "" then selectByQuality quality else cf
  | none => selectByQuality quality

/-! ## Worker error translation and temp cleanup (app.py lines 262-287) -/

/-- Canned message for 403/Forbidden (line 268). -/
def canned403 : String :=
  "YouTube blocked the download (403 Forbidden). This video may be restricted or require sign-in. Try a different video or update yt-dlp."

/-- Canned message for 404/not found (line 270). -/
def canned404 : String :=
  "Video not found (404). The video may be private, deleted, or the URL is incorrect."

/-- Canned message for copyright (line 272). -/
def cannedCopyright : String :=
  "Video is protected by copyright and cannot be downloaded."

/-- Canned message for private (line 274). -/
def cannedPrivate : String :=
  "This video is private and cannot be downloaded."

/-- Canned message for unavailable (line 276). -/
def cannedUnavailable : String :=
  "Video is unavailable in your region or has been removed."

/-- The `if/elif` chain of the worker `except` block (lines 267-276):
first match wins, otherwise the raw message is kept. -/
def translateError (msg : String) : String :=
  if containsStr msg "403" || containsStr msg "Forbidden" then canned403
  else if containsStr msg "404" || containsStr (lcStr msg) "not found" then canned404
  else if containsStr (lcStr msg) "copyright" then cannedCopyright
  else if containsStr (lcStr msg) "private" then cannedPrivate
  else if containsStr (lcStr msg) "unavailable" then cannedUnavailable
  else msg

/-- Does a temp-directory entry match the glob `f"{download_id}_*"`? -/
def hasIdPfx (jid fname : String) : Bool :=
  isPfxCh (jid.data ++ ['_']) fname.data

/-- The temp files surviving the error-path cleanup loop (lines 282-287):
each file matching the job prefix is unlinked inside `try/except: pass`,
so matching files whose deletion fails (`failing`) survive, and
non-matching files are untouched. -/
def errorCleanup (jid : String) (failing fs : List String) : List String :=
  fs.filter (fun f => !(hasIdPfx jid f) || failing.contains f)

/-! ## Worker transitions on a Job Record -/

/-- One completed worker transition on a Job Record: a progress-hook
callback, the success finalization (lines 253-258: status `completed`,
progress 100, final filename, file path, timestamp), or the error
finalization (lines 278-279: status `error`, translated message).  The
error-path temp-file cleanup acts on the filesystem, not the record,
and is modelled by `errorCleanup`. -/
inductive WEvent where
  | hook (d : HookDict)
  | finSuccess (fname fpath : String) (t : ℚ)
  | finFailure (raw : String)
deriving DecidableEq

/-- Apply one worker transition to a Job Record. -/
def stepW (s : DownloadProgress) (e : WEvent) : DownloadProgress :=
  match e with
  | WEvent.hook d => progress_hook d s
  | WEvent.finSuccess fn fp t =>
    { s with status := Status.completed, progress := 100,
             filename := some fn, file_path := some fp,
             completed_at := some t }
  | WEvent.finFailure raw =>
    { s with status := Status.error, error := some (translateError raw) }

/-- Run a sequence of worker transitions from a starting record. -/
def runW (s : DownloadProgress) (es : List WEvent) : DownloadProgress :=
  es.foldl stepW s

/-- The claimed Job Record invariant: `file_path` non-null iff completed,
`error` non-null iff error status, never both non-null. -/
def jobInv (s : DownloadProgress) : Bool :=
  (s.file_path.isSome == decide (s.status = Status.completed))
    && (s.error.isSome == decide (s.status = Status.error))
    && !(s.file_path.isSome && s.error.isSome)

/-! ## Filename collision loop (app.py lines 240-248) -/

/-- Models Python `name.rsplit('.', 1)` when it yields two parts: the text
before the last dot and the extension after it; `none` when the name has
no dot. -/
def splitLastDot (s : String) : Option (String × String) :=
  match (splitOnCh '.' s.data).reverse with
  | [] => none
  | [_] => none
  | ext :: rest =>
    some (⟨(rest.reverse.map (fun p => p ++ ['.'])).flatten.dropLast⟩, ⟨ext⟩)

/-- One iteration of the collision loop body: append `_{counter}` before
the extension (or at the end when there is none). -/
def nextCand (name : String) (counter : Nat) : String :=
  match splitLastDot name with
  | some (stem, ext) => stem ++ "_" ++ Nat.repr counter ++ "." ++ ext
  | none => name ++ "_" ++ Nat.repr counter

/-- Fuel-bounded unfolding of the `while final_path.exists()` loop.  Each
iteration lengthens the candidate by at least two characters, so with fuel
exceeding the longest existing name the loop always exits before the fuel
does; the fuel only makes the recursion structural. -/
def resolveUniqueAux (existing : List String) : Nat → String → Nat → String
  | 0, name, _ => name
  | fuel + 1, name, counter =>
    if existing.contains name then
      resolveUniqueAux existing fuel (nextCand name counter) (counter + 1)
    else name

/-- The unique-filename loop: starting from the sanitized candidate name,
repeatedly suffix `_{counter}` (counter starting at 1) until the name is
not among the existing files. -/
def ensureUniqueFilename (existing : List String) (name : String) : String :=
  resolveUniqueAux existing
    (existing.foldr (fun s m => max s.data.length m) 0 + 2) name 1

/-! ## Concurrency gate (app.py lines 305-343) -/

/-- `MAX_CONCURRENT_DOWNLOADS` (line 26). -/
def MAX_CONCURRENT_DOWNLOADS : Nat := 3

/-- Membership test of line 319: `d.status in ["starting", "downloading",
"processing"]`. -/
def isActive (s : Status) : Bool :=
  s = Status.starting || s = Status.downloading || s = Status.processing

/-- The count the gate computes over `active_downloads.values()`. -/
def activeCount (reg : List DownloadProgress) : Nat :=
  (reg.filter (fun r => isActive r.status)).length

/-- Outcome of one `POST /api/download` request: whether it was admitted,
the HTTP status code returned, and the registry afterwards. -/
structure StartResult where
  admitted : Bool
  httpCode : Nat
  registry : List DownloadProgress
deriving DecidableEq

/-- Embedding of the gate section of `start_download` (registry as a list
of records; the fresh `uuid4` key is abstracted away since only the
record statuses matter to the gate): reject with 429 when
`active_count >= MAX_CONCURRENT_DOWNLOADS`, otherwise insert a fresh
`DownloadProgress` and return 200. -/
def start_download (reg : List DownloadProgress) : StartResult :=
  if MAX_CONCURRENT_DOWNLOADS ≤ activeCount reg then ⟨false, 429, reg⟩
  else ⟨true, 200, reg ++ [initProgress]⟩

/-! ## Metadata fetcher `get_video_info` (app.py lines 75-115) -/

/-- The fields `get_video_info` reads from a raw yt-dlp format dict;
`none` models an absent key (occasional yt-dlp present-but-`None`
values behave identically under the `.get` calls used here). -/
structure RawFormat where
  format_id : Option String
  ext : Option String
  format_note : Option String
  quality : Option String
  filesize : Option Int
  vcodec : Option String
  acodec : Option String
  width : Option Int
  height : Option Int
deriving DecidableEq

/-- One format descriptor in the `/api/info` response (lines 92-101). -/
structure FormatEntry where
  format_id : Option String
  ext : Option String
  quality : String
  filesize : Option Int
  vcodec : Option String
  acodec : Option String
  width : Option Int
  height : Option Int
deriving DecidableEq

/-- The filter of line 91: keep a format iff
`f.get("vcodec") != "none" or f.get("acodec") != "none"`. -/
def keepFormat (f : RawFormat) : Bool :=
  !(f.vcodec == some "none") || !(f.acodec == some "none")

/-- Build one response descriptor from a raw format (lines 92-101). -/
def mkFormatEntry (f : RawFormat) : FormatEntry :=
  ⟨f.format_id, f.ext, f.format_note.getD (f.quality.getD "unknown"),
   f.filesize, f.vcodec, f.acodec, f.width, f.height⟩

/-- The fields `get_video_info` reads from the raw yt-dlp info dict. -/
structure RawInfo where
  title : Option String
  duration : Option Int
  view_count : Option Int
  uploader : Option String
  upload_date : Option String
  description : Option String
  thumbnail : Option String
  formats : Option (List RawFormat)
  webpage_url : Option String
deriving DecidableEq

/-- The dict returned on success (lines 103-113). -/
structure VideoInfo where
  title : String
  duration : Option Int
  view_count : Option Int
  uploader : Option String
  upload_date : Option String
  description : String
  thumbnail : Option String
  formats : List FormatEntry
  webpage_url : String
deriving DecidableEq

/-- Embedding of the success path of `get_video_info`: the description is
`info.get("description", "")[:200] + "..." if info.get("description")
else ""` (Python conditional expression: the ellipsis is appended whenever
the description is truthy), the formats are filtered then capped at 20,
and `webpage_url` falls back to the request URL. -/
def get_video_info (url : String) (info : RawInfo) : VideoInfo :=
  { title := info.title.getD "Unknown Title"
    duration := info.duration
    view_count := info.view_count
    uploader := info.uploader
    upload_date := info.upload_date
    description :=
      match info.description with
      | some s => if s = "" then "" else strTake s 200 ++ "..."
      | none => ""
    thumbnail := info.thumbnail
    formats := (((info.formats.getD []).filter keepFormat).map mkFormatEntry).take 20
    webpage_url := info.webpage_url.getD url }

/-- The message of the exception raised on any failure (line 115):
`Exception(f"Failed to extract video info: {str(e)}")`. -/
def extractInfoErrMsg (orig : String) : String :=
  "Failed to extract video info: " ++ orig

/-! ## Registered routes (the `@app.route` decorators present in app.py) -/

/-- Every `(path, method)` pair registered by a decorator in the file.
`test_url` (line 487) carries no decorator, and the retention-sweep code
(lines 532-577) sits after the return statements of `test_url` with no `def` or
decorator of its own, so neither `/api/test-url` nor `/api/cleanup`
appears here. -/
def registeredRoutes : List (String × String) :=
  [("/api/info", "POST"),
   ("/api/download", "POST"),
   ("/api/progress/<download_id>", "GET"),
   ("/api/download/<download_id>/file", "GET"),
   ("/api/downloads", "GET"),
   ("/api/update-ytdlp", "POST"),
   ("/api/formats", "POST"),
   ("/health", "GET")]

/-- Method registered for a path, `none` when Flask would answer 404 for
every method (no rule registered). -/
def routeFor (p : String) : Option String :=
  (registeredRoutes.find? (fun r => r.fst == p)).map Prod.snd

/-- The endpoints the startup banner (lines 597-606) tells the operator
exist, including `POST /api/cleanup` and `POST /api/test-url`. -/
def bannerEndpoints : List String :=
  ["/api/info", "/api/download", "/api/progress/<id>",
   "/api/download/<id>/file", "/api/downloads", "/api/cleanup",
   "/api/update-ytdlp", "/api/test-url", "/health"]

/-! ## Verification predicates -/

/-- States a Job Record passes through while the library call of its worker is
still in flight: no terminal field set yet. -/
def preDone (s : DownloadProgress) : Prop :=
  s.error = none ∧ s.file_path = none ∧
    s.status ≠ Status.completed ∧ s.status ≠ Status.error

/-- Sanity conditions on one hook dict: when the library reports a usable
total, the downloaded count is between 0 and that total, and any percent
string it supplies parses (if at all) to a value in [0, 100].  The code
itself enforces neither. -/
def goodHook (d : HookDict) : Prop :=
  (∀ t, d.total_bytes = some t → t ≠ 0 →
    0 ≤ d.downloaded_bytes ∧ d.downloaded_bytes ≤ t)
  ∧ (∀ ps q, d.percent_str = some ps →
      pyFloat? (remPercent (pyStrip ps)) = some q → 0 ≤ q ∧ q ≤ 100)

/-- Lift `goodHook` to worker transitions (finalizations set 100 or leave
progress alone, so they are unconditionally fine). -/
def goodEvent : WEvent → Prop
  | WEvent.hook d => goodHook d
  | _ => True

/-! ## Helper lemmas -/

theorem percentFb_keeps (d : HookDict) (s : DownloadProgress) :
    (percentFb d s).status = s.status ∧ (percentFb d s).error = s.error ∧
      (percentFb d s).file_path = s.file_path := by
  refine ⟨?_, ?_, ?_⟩ <;>
    (unfold percentFb; split
     · split
       · rfl
       · rfl
     · rfl)

theorem progress_hook_preDone (d : HookDict) (s : DownloadProgress)
    (hne : d.hstatus ≠ "error") (hs : preDone s) : preDone (progress_hook d s) := by
  obtain ⟨he, hf, hc, herr⟩ := hs
  unfold progress_hook
  by_cases h1 : d.hstatus = "downloading"
  · rw [if_pos h1]
    refine ⟨?_, ?_, by simp, by simp⟩
    · show (match d.total_bytes with
        | some t =>
          if t = 0 then percentFb d s
          else { s with progress := d.downloaded_bytes / t * 100 }
        | none => percentFb d s).error = none
      split
      · split
        · exact (percentFb_keeps d s).2.1.trans he
        · exact he
      · exact (percentFb_keeps d s).2.1.trans he
    · show (match d.total_bytes with
        | some t =>
          if t = 0 then percentFb d s
          else { s with progress := d.downloaded_bytes / t * 100 }
        | none => percentFb d s).file_path = none
      split
      · split
        · exact (percentFb_keeps d s).2.2.trans hf
        · exact hf
      · exact (percentFb_keeps d s).2.2.trans hf
  · rw [if_neg h1]
    by_cases h2 : d.hstatus = "finished"
    · rw [if_pos h2]; exact ⟨he, hf, by simp, by simp⟩
    · rw [if_neg h2]
      by_cases h3 : d.hstatus = "error"
      · exact absurd h3 hne
      · rw [if_neg h3]; exact ⟨he, hf, hc, herr⟩

theorem runW_hooks_preDone (ds : List HookDict) (s : DownloadProgress)
    (hs : preDone s) (h : ∀ d ∈ ds, d.hstatus ≠ "error") :
    preDone (runW s (ds.map WEvent.hook)) := by
  induction ds generalizing s with
  | nil => exact hs
  | cons d ds ih =>
    exact ih (progress_hook d s)
      (progress_hook_preDone d s (h d (List.mem_cons_self d ds)) hs)
      (fun d' hd' => h d' (List.mem_cons_of_mem d hd'))

theorem preDone_jobInv (s : DownloadProgress) (hs : preDone s) : jobInv s = true := by
  obtain ⟨he, hf, hc, herr⟩ := hs
  unfold jobInv
  rw [he, hf]
  simp [hc, herr]

theorem isPfxCh_self (l : List Char) : isPfxCh l l = true := by
  induction l with
  | nil => rfl
  | cons a t ih => simp [isPfxCh, ih]

theorem containsSubCh_append_self (p s : List Char) :
    containsSubCh (p ++ s) s = true := by
  induction p with
  | nil =>
    cases s with
    | nil => rfl
    | cons a t => simp [containsSubCh, isPfxCh_self]
  | cons c p ih => simp [containsSubCh, ih]

theorem extractInfoErrMsg_data (orig : String) :
    (extractInfoErrMsg orig).data = ("Failed to extract video info: ").data ++ orig.data := by
  obtain ⟨l⟩ := orig; rfl

theorem ratio_bounds (a t : ℚ) (h0 : 0 ≤ a) (hle : a ≤ t) (ht : t ≠ 0) :
    0 ≤ a / t * 100 ∧ a / t * 100 ≤ 100 := by
  have htpos : 0 < t := lt_of_le_of_ne (le_trans h0 hle) (Ne.symm ht)
  constructor
  · exact mul_nonneg (div_nonneg h0 htpos.le) (by norm_num)
  · have h1 : a / t ≤ 1 := (div_le_one htpos).mpr hle
    calc a / t * 100 ≤ 1 * 100 := mul_le_mul_of_nonneg_right h1 (by norm_num)
      _ = 100 := by norm_num

theorem percentFb_bounds (d : HookDict) (s : DownloadProgress)
    (h2 : ∀ ps q, d.percent_str = some ps →
      pyFloat? (remPercent (pyStrip ps)) = some q → 0 ≤ q ∧ q ≤ 100)
    (hs : 0 ≤ s.progress ∧ s.progress ≤ 100) :
    0 ≤ (percentFb d s).progress ∧ (percentFb d s).progress ≤ 100 := by
  rcases hps : d.percent_str with _ | ps
  · simp only [percentFb, hps]; exact hs
  · rcases hpf : pyFloat? (remPercent (pyStrip ps)) with _ | q
    · simp only [percentFb, hps, hpf]; exact hs
    · simp only [percentFb, hps, hpf]; exact h2 ps q hps hpf

theorem stepW_bounds (s : DownloadProgress) (e : WEvent) (he : goodEvent e)
    (hs : 0 ≤ s.progress ∧ s.progress ≤ 100) :
    0 ≤ (stepW s e).progress ∧ (stepW s e).progress ≤ 100 := by
  cases e with
  | hook d =>
    obtain ⟨hg1, hg2⟩ := he
    show 0 ≤ (progress_hook d s).progress ∧ (progress_hook d s).progress ≤ 100
    unfold progress_hook
    by_cases h1 : d.hstatus = "downloading"
    · rw [if_pos h1]
      show (0 : ℚ) ≤ (match d.total_bytes with
          | some t =>
            if t = 0 then percentFb d s
            else { s with progress := d.downloaded_bytes / t * 100 }
          | none => percentFb d s).progress ∧
        (match d.total_bytes with
          | some t =>
            if t = 0 then percentFb d s
            else { s with progress := d.downloaded_bytes / t * 100 }
          | none => percentFb d s).progress ≤ (100 : ℚ)
      rcases htb : d.total_bytes with _ | t
      · simp only []
        exact percentFb_bounds d s hg2 hs
      · simp only []
        by_cases ht : t = 0
        · rw [if_pos ht]; exact percentFb_bounds d s hg2 hs
        · rw [if_neg ht]
          exact ratio_bounds d.downloaded_bytes t (hg1 t htb ht).1 (hg1 t htb ht).2 ht
    · rw [if_neg h1]
      by_cases h2 : d.hstatus = "finished"
      · rw [if_pos h2]; constructor <;> norm_num
      · rw [if_neg h2]
        by_cases h3 : d.hstatus = "error"
        · rw [if_pos h3]; exact hs
        · rw [if_neg h3]; exact hs
  | finSuccess fn fp t => constructor <;> norm_num [stepW]
  | finFailure raw => exact hs

theorem runW_bounds (es : List WEvent) (s : DownloadProgress)
    (hs : 0 ≤ s.progress ∧ s.progress ≤ 100) (h : ∀ e ∈ es, goodEvent e) :
    0 ≤ (runW s es).progress ∧ (runW s es).progress ≤ 100 := by
  induction es generalizing s with
  | nil => exact hs
  | cons e es ih =>
    exact ih (stepW s e)
      (stepW_bounds s e (h e (List.mem_cons_self e es)) hs)
      (fun e' he' => h e' (List.mem_cons_of_mem e he'))

/-! ## Claim theorems -/

/-- Claim C1 (counterexample): the invariant "file_path non-null iff
completed, error non-null iff error status, never both" does not hold
after every completed worker transition.  The error branch of the hook stores a
message, and a later downloading callback (yt-dlp retries after reporting
an error) moves the status back to `downloading` without clearing
`error`, so `error` is non-null while `status ≠ error`. -/
theorem jobInv_stale_error_counterexample :
    jobInv (runW initProgress
      [WEvent.hook ⟨"error", 0, none, none, "", none⟩,
       WEvent.hook ⟨"downloading", 0, none, none, "", none⟩]) = false
    ∧ (runW initProgress
      [WEvent.hook ⟨"error", 0, none, none, "", none⟩,
       WEvent.hook ⟨"downloading", 0, none, none, "", none⟩]).status = Status.downloading
    ∧ (runW initProgress
      [WEvent.hook ⟨"error", 0, none, none, "", none⟩,
       WEvent.hook ⟨"downloading", 0, none, none, "", none⟩]).error
        = some "Unknown error" := by decide

/-- Claim C1 (amended): for every worker run made of progress callbacks
none of which reports the `error` phase, optionally finalized by the
success epilogue (lines 253-258) or the except-block epilogue (lines
278-279), the invariant holds after every completed transition:
`file_path` is non-null iff completed, `error` is non-null iff the status
is `error`, and never both. -/
theorem jobInv_holds_without_error_hooks (ds : List HookDict)
    (h : ∀ d ∈ ds, d.hstatus ≠ "error") :
    jobInv (runW initProgress (ds.map WEvent.hook)) = true
    ∧ (∀ fn fp t,
        jobInv (runW initProgress
          (ds.map WEvent.hook ++ [WEvent.finSuccess fn fp t])) = true)
    ∧ (∀ raw,
        jobInv (runW initProgress
          (ds.map WEvent.hook ++ [WEvent.finFailure raw])) = true) := by
  have hp : preDone (runW initProgress (ds.map WEvent.hook)) :=
    runW_hooks_preDone ds initProgress ⟨rfl, rfl, by decide, by decide⟩ h
  obtain ⟨he, hf, hcs, herr⟩ := hp
  refine ⟨preDone_jobInv _ ⟨he, hf, hcs, herr⟩, ?_, ?_⟩
  · intro fn fp t
    rw [runW, List.foldl_append]
    show jobInv (stepW (runW initProgress (ds.map WEvent.hook))
      (WEvent.finSuccess fn fp t)) = true
    simp [stepW, jobInv, he]
  · intro raw
    rw [runW, List.foldl_append]
    show jobInv (stepW (runW initProgress (ds.map WEvent.hook))
      (WEvent.finFailure raw)) = true
    simp [stepW, jobInv, hf]

/-- Witness for the amended C1 theorem at a concrete error-free run. -/
theorem jobInv_holds_witness :
    jobInv (runW initProgress
      [WEvent.hook ⟨"downloading", 0, none, none, "", none⟩]) = true
    ∧ jobInv (runW initProgress
      [WEvent.hook ⟨"downloading", 0, none, none, "", none⟩,
       WEvent.finSuccess "video.mp4" "downloads/video.mp4" 0]) = true := by
  have h := jobInv_holds_without_error_hooks
    [⟨"downloading", 0, none, none, "", none⟩]
    (by intro d hd; simp at hd; subst hd; decide)
  exact ⟨h.1, h.2.1 "video.mp4" "downloads/video.mp4" 0⟩

/-- Claim C2: `POST /api/download` admits a new job iff the number of
records with status in starting/downloading/processing is strictly below
`MAX_CONCURRENT_DOWNLOADS = 3`; at or above the limit it answers 429 and
creates no record; below it, it registers a fresh record in `starting`. -/
theorem concurrency_gate_spec (reg : List DownloadProgress) :
    ((start_download reg).admitted = true ↔
      activeCount reg < MAX_CONCURRENT_DOWNLOADS)
    ∧ (MAX_CONCURRENT_DOWNLOADS ≤ activeCount reg →
        (start_download reg).httpCode = 429 ∧ (start_download reg).registry = reg)
    ∧ (activeCount reg < MAX_CONCURRENT_DOWNLOADS →
        (start_download reg).httpCode = 200
        ∧ (start_download reg).registry = reg ++ [initProgress]
        ∧ initProgress.status = Status.starting) := by
  unfold start_download
  by_cases h : MAX_CONCURRENT_DOWNLOADS ≤ activeCount reg
  · rw [if_pos h]
    exact ⟨by simp; omega, fun _ => ⟨rfl, rfl⟩, fun hlt => absurd h (by omega)⟩
  · rw [if_neg h]
    exact ⟨by simp; omega, fun hge => absurd hge h, fun _ => ⟨rfl, rfl, rfl⟩⟩

/-- Witness for C2 at an empty registry (admitted) and a registry holding
three active jobs (rejected with 429, registry unchanged). -/
theorem concurrency_gate_spec_witness :
    (start_download []).admitted = true
    ∧ (start_download [initProgress, initProgress, initProgress]).httpCode = 429
    ∧ (start_download [initProgress, initProgress, initProgress]).registry
        = [initProgress, initProgress, initProgress] := by
  have h1 := (concurrency_gate_spec []).1.mpr (by decide)
  have h2 := (concurrency_gate_spec [initProgress, initProgress, initProgress]).2.1
    (by decide)
  exact ⟨h1, h2.1, h2.2⟩

/-- Claim C3 (counterexample): with `video.mp4` and `video_1.mp4` already
present, a third job whose sanitized base name is `video.mp4` is saved as
`video_1_2.mp4`, not `video_2.mp4`: the loop body suffixes the
already-suffixed name of the previous iteration. -/
theorem collision_third_name_counterexample :
    ensureUniqueFilename ["video.mp4", "video_1.mp4"] "video.mp4" = "video_1_2.mp4"
    ∧ ¬ ensureUniqueFilename ["video.mp4", "video_1.mp4"] "video.mp4"
        = "video_2.mp4" := by decide

/-- Claim C3 (amended): the second colliding job is saved as
`video_1.mp4` as claimed, but the third is saved as `video_1_2.mp4`
(suffixes accumulate); the produced name is nonetheless absent from the
existing files. -/
theorem collision_suffix_accumulates :
    ensureUniqueFilename ["video.mp4"] "video.mp4" = "video_1.mp4"
    ∧ ensureUniqueFilename ["video.mp4", "video_1.mp4"] "video.mp4"
        = "video_1_2.mp4"
    ∧ (["video.mp4", "video_1.mp4"] : List String).contains "video_1_2.mp4"
        = false := by decide

/-- Claim C4: no `@app.route` decorator registers `/api/cleanup` (or
`/api/test-url`): the retention-sweep code sits unreachably after
the return statements of `test_url` and `test_url` itself is unrouted, while
the startup banner still advertises both endpoints, so `POST
/api/cleanup` gets the Flask default 404 and never triggers the sweeper. -/
theorem cleanup_route_missing :
    routeFor "/api/cleanup" = none
    ∧ bannerEndpoints.contains "/api/cleanup" = true
    ∧ routeFor "/api/test-url" = none
    ∧ bannerEndpoints.contains "/api/test-url" = true
    ∧ routeFor "/api/info" = some "POST"
    ∧ routeFor "/api/download" = some "POST" := by decide

theorem progress_hook_downloading_eq (d : HookDict) (s : DownloadProgress)
    (h : d.hstatus = "downloading") :
    progress_hook d s =
      { (match d.total_bytes with
          | some t =>
            if t = 0 then percentFb d s
            else { s with progress := d.downloaded_bytes / t * 100 }
          | none => percentFb d s) with status := Status.downloading } := by
  unfold progress_hook
  rw [if_pos h]

theorem progress_hook_finished_eq (d : HookDict) (s : DownloadProgress)
    (h : d.hstatus = "finished") :
    progress_hook d s =
      { s with status := Status.processing, progress := 90,
               filename := some (pyBasename d.hfilename) } := by
  unfold progress_hook
  rw [h, if_neg (by decide : ¬("finished" : String) = "downloading"),
      if_pos (rfl : ("finished" : String) = "finished")]

theorem percentFb_parse_eq (d : HookDict) (s : DownloadProgress) (ps : String)
    (q : ℚ) (hps : d.percent_str = some ps)
    (hpf : pyFloat? (remPercent (pyStrip ps)) = some q) :
    (percentFb d s).progress = q := by
  unfold percentFb
  rw [hps]
  show (match pyFloat? (remPercent (pyStrip ps)) with
    | some q => { s with progress := q }
    | none => s).progress = q
  rw [hpf]

theorem percentFb_noparse_eq (d : HookDict) (s : DownloadProgress) (ps : String)
    (hps : d.percent_str = some ps)
    (hpf : pyFloat? (remPercent (pyStrip ps)) = none) :
    percentFb d s = s := by
  unfold percentFb
  rw [hps]
  show (match pyFloat? (remPercent (pyStrip ps)) with
    | some q => { s with progress := q }
    | none => s) = s
  rw [hpf]

theorem percentFb_nostr_eq (d : HookDict) (s : DownloadProgress)
    (hps : d.percent_str = none) : percentFb d s = s := by
  unfold percentFb
  rw [hps]

/-- Claim C5: on a downloading callback the hook sets progress to
`downloaded_bytes / total_bytes * 100` when the total is known (and
nonzero, per Python truthiness), otherwise parses the library percent
string (stripped, `%` removed) and leaves progress unchanged on parse
failure or an absent string; on a finished callback it sets status
`processing`, forces progress 90, and records the base name of the
reported temporary path. -/
theorem progress_hook_spec (d : HookDict) (s : DownloadProgress) :
    (d.hstatus = "downloading" →
      (∀ t, d.total_bytes = some t → ¬ t = 0 →
        (progress_hook d s).progress = d.downloaded_bytes / t * 100)
      ∧ ((d.total_bytes = none ∨ d.total_bytes = some 0) →
          (∀ ps q, d.percent_str = some ps →
            pyFloat? (remPercent (pyStrip ps)) = some q →
            (progress_hook d s).progress = q)
          ∧ (∀ ps, d.percent_str = some ps →
              pyFloat? (remPercent (pyStrip ps)) = none →
              (progress_hook d s).progress = s.progress)
          ∧ (d.percent_str = none → (progress_hook d s).progress = s.progress))
      ∧ (progress_hook d s).status = Status.downloading)
    ∧ (d.hstatus = "finished" →
        (progress_hook d s).status = Status.processing
        ∧ (progress_hook d s).progress = 90
        ∧ (progress_hook d s).filename = some (pyBasename d.hfilename)) := by
  constructor
  · intro h1
    refine ⟨?_, ?_, ?_⟩
    · intro t htb ht0
      rw [progress_hook_downloading_eq d s h1, htb]
      show (if t = 0 then percentFb d s
        else { s with progress := d.downloaded_bytes / t * 100 }).progress
          = d.downloaded_bytes / t * 100
      rw [if_neg ht0]
    · intro hor
      have hm : (match d.total_bytes with
          | some t =>
            if t = 0 then percentFb d s
            else { s with progress := d.downloaded_bytes / t * 100 }
          | none => percentFb d s) = percentFb d s := by
        rcases hor with h0 | h0
        · rw [h0]
        · rw [h0]
          show (if (0 : ℚ) = 0 then percentFb d s
            else { s with progress := d.downloaded_bytes / 0 * 100 }) = percentFb d s
          rw [if_pos rfl]
      refine ⟨?_, ?_, ?_⟩
      · intro ps q hps hpf
        rw [progress_hook_downloading_eq d s h1, hm]
        exact percentFb_parse_eq d s ps q hps hpf
      · intro ps hps hpf
        rw [progress_hook_downloading_eq d s h1, hm,
            percentFb_noparse_eq d s ps hps hpf]
      · intro hps
        rw [progress_hook_downloading_eq d s h1, hm, percentFb_nostr_eq d s hps]
    · rw [progress_hook_downloading_eq d s h1]
  · intro h2
    rw [progress_hook_finished_eq d s h2]
    exact ⟨rfl, rfl, rfl⟩

/-- Witness for C5 at concrete downloading and finished callbacks. -/
theorem progress_hook_spec_witness :
    (progress_hook ⟨"downloading", 50, some 100, none, "", none⟩
        initProgress).progress = (50 : ℚ) / 100 * 100
    ∧ (progress_hook ⟨"finished", 0, none, none, "temp/abc_video.mp4", none⟩
        initProgress).status = Status.processing
    ∧ (progress_hook ⟨"finished", 0, none, none, "temp/abc_video.mp4", none⟩
        initProgress).filename = some "abc_video.mp4" := by
  refine ⟨?_, ?_, ?_⟩
  · exact ((progress_hook_spec ⟨"downloading", 50, some 100, none, "", none⟩
      initProgress).1 rfl).1 100 rfl (by norm_num)
  · exact ((progress_hook_spec ⟨"finished", 0, none, none, "temp/abc_video.mp4", none⟩
      initProgress).2 rfl).1
  · have h := ((progress_hook_spec ⟨"finished", 0, none, none, "temp/abc_video.mp4", none⟩
      initProgress).2 rfl).2.2
    exact h.trans (by decide)

set_option maxRecDepth 8000 in
/-- Claim C6: with quality `1080p` and no custom format the worker
format string has exactly these `/`-separated alternatives in priority
order: the exact-height separate-stream pair muxed with m4a audio, the
same pair with any best audio, the combined-stream exact match, then the
at-or-below-height video paired with m4a audio, then with any best audio,
then the combined-stream at-or-below match, then absolute best. -/
theorem format_1080p_chain_order :
    selectFormat "1080p" none = chain1080
    ∧ splitSlash (selectFormat "1080p" none) =
      ["bestvideo[height<=1080][height>=1080]+bestaudio[ext=m4a]",
       "bestvideo[height<=1080][height>=1080]+bestaudio",
       "best[height<=1080][height>=1080]",
       "bestvideo[height<=1080]+bestaudio[ext=m4a]",
       "bestvideo[height<=1080]+bestaudio",
       "best[height<=1080]",
       "best"] := by decide

/-- Claim C7: on worker failure the record status becomes `error` with
the translated message; the translation replaces the raw message with the
canned explanation of the first matching pattern among 403/Forbidden,
404/"not found", copyright, private, unavailable (the last four matched
case-insensitively where the code lower-cases), and keeps the raw message
verbatim when nothing matches; and exactly the temp files carrying the
job id prefix (`id` plus underscore) are deleted best-effort, deletion failures
swallowed. -/
theorem worker_error_spec (raw : String) (s : DownloadProgress)
    (jid : String) (failing fs : List String) :
    (stepW s (WEvent.finFailure raw)).status = Status.error
    ∧ (stepW s (WEvent.finFailure raw)).error = some (translateError raw)
    ∧ ((containsStr raw "403" || containsStr raw "Forbidden") = true →
        translateError raw = canned403)
    ∧ ((containsStr raw "403" || containsStr raw "Forbidden") = false →
        (containsStr raw "404" || containsStr (lcStr raw) "not found") = true →
        translateError raw = canned404)
    ∧ ((containsStr raw "403" || containsStr raw "Forbidden") = false →
        (containsStr raw "404" || containsStr (lcStr raw) "not found") = false →
        containsStr (lcStr raw) "copyright" = true →
        translateError raw = cannedCopyright)
    ∧ ((containsStr raw "403" || containsStr raw "Forbidden") = false →
        (containsStr raw "404" || containsStr (lcStr raw) "not found") = false →
        containsStr (lcStr raw) "copyright" = false →
        containsStr (lcStr raw) "private" = true →
        translateError raw = cannedPrivate)
    ∧ ((containsStr raw "403" || containsStr raw "Forbidden") = false →
        (containsStr raw "404" || containsStr (lcStr raw) "not found") = false →
        containsStr (lcStr raw) "copyright" = false →
        containsStr (lcStr raw) "private" = false →
        containsStr (lcStr raw) "unavailable" = true →
        translateError raw = cannedUnavailable)
    ∧ ((containsStr raw "403" || containsStr raw "Forbidden") = false →
        (containsStr raw "404" || containsStr (lcStr raw) "not found") = false →
        containsStr (lcStr raw) "copyright" = false →
        containsStr (lcStr raw) "private" = false →
        containsStr (lcStr raw) "unavailable" = false →
        translateError raw = raw)
    ∧ (∀ f, f ∈ errorCleanup jid failing fs ↔
        f ∈ fs ∧ (hasIdPfx jid f = true → f ∈ failing)) := by
  refine ⟨rfl, rfl, ?_, ?_, ?_, ?_, ?_, ?_, ?_⟩
  · intro h1; simp [translateError, h1]
  · intro h1 h2; simp [translateError, h1, h2]
  · intro h1 h2 h3; simp [translateError, h1, h2, h3]
  · intro h1 h2 h3 h4; simp [translateError, h1, h2, h3, h4]
  · intro h1 h2 h3 h4 h5; simp [translateError, h1, h2, h3, h4, h5]
  · intro h1 h2 h3 h4 h5; simp [translateError, h1, h2, h3, h4, h5]
  · intro f
    simp [errorCleanup, List.mem_filter, List.contains, List.elem_iff]
    by_cases hb : hasIdPfx jid f = true <;> simp_all

/-- Witness for C7: an unmatched message is kept verbatim, and the
error-path cleanup removes exactly the prefixed temp file. -/
theorem worker_error_spec_witness :
    translateError "boom" = "boom"
    ∧ ("other.mp4" ∈ errorCleanup "j1" [] ["j1_a.mp4", "other.mp4"])
    ∧ ¬ ("j1_a.mp4" ∈ errorCleanup "j1" [] ["j1_a.mp4", "other.mp4"]) := by
  have h := worker_error_spec "boom" initProgress "j1" [] ["j1_a.mp4", "other.mp4"]
  refine ⟨?_, ?_, ?_⟩
  · exact h.2.2.2.2.2.2.2.1 (by decide) (by decide) (by decide) (by decide) (by decide)
  · exact (h.2.2.2.2.2.2.2.2 "other.mp4").mpr
      ⟨by decide, fun hp => absurd hp (by decide)⟩
  · intro hm
    have := ((h.2.2.2.2.2.2.2.2 "j1_a.mp4").mp hm).2 (by decide)
    exact absurd this (by decide)

/-- Claim C8 (counterexample): the wrapped metadata-fetch failure message
is not the original library message itself — a fixed prefix is added. -/
theorem info_error_not_verbatim_counterexample :
    ¬ extractInfoErrMsg "Video unavailable" = "Video unavailable" := by decide

/-- Claim C8 (amended): every metadata-fetch failure is wrapped into a
single error whose message is the fixed prefix `Failed to extract video
info: ` followed by the original message, which therefore appears inside
it verbatim; no canned Download-Worker replacement is applied (the result
never equals any canned message). -/
theorem info_error_wrapped_message (orig : String) :
    (extractInfoErrMsg orig).data
      = ("Failed to extract video info: ").data ++ orig.data
    ∧ containsSubCh (extractInfoErrMsg orig).data orig.data = true
    ∧ (extractInfoErrMsg orig == canned403) = false
    ∧ (extractInfoErrMsg orig == canned404) = false
    ∧ (extractInfoErrMsg orig == cannedCopyright) = false
    ∧ (extractInfoErrMsg orig == cannedPrivate) = false
    ∧ (extractInfoErrMsg orig == cannedUnavailable) = false := by
  have hdata := extractInfoErrMsg_data orig
  have hhead : (extractInfoErrMsg orig).data.head? = some 'F' := by
    obtain ⟨l⟩ := orig; rfl
  refine ⟨hdata, ?_, ?_, ?_, ?_, ?_, ?_⟩
  · rw [hdata]; exact containsSubCh_append_self _ _
  all_goals
    rw [beq_eq_false_iff_ne]
    intro hEq
    rw [hEq] at hhead
    exact absurd hhead (by decide)

/-- Claim C9 (counterexample): a 5-character description is returned with
the ellipsis marker appended even though nothing was truncated. -/
theorem description_ellipsis_counterexample :
    (get_video_info "u"
      ⟨none, none, none, none, none, some "Short", none, none, none⟩).description
        = "Short..."
    ∧ ("Short" : String).data.length ≤ 200
    ∧ ¬ (get_video_info "u"
      ⟨none, none, none, none, none, some "Short", none, none, none⟩).description
        = "Short" := by decide

/-- Claim C9 (amended): `get_video_info` returns at most 20 format
descriptors, each built from a raw format passing the
video-or-audio-codec filter; the description is empty for an
absent/empty raw description and otherwise is the first 200 characters
with the ellipsis marker appended unconditionally (even when nothing was
truncated). -/
theorem info_success_shape (url : String) (info : RawInfo) :
    (get_video_info url info).formats.length ≤ 20
    ∧ (∀ e ∈ (get_video_info url info).formats,
        ∃ f, f ∈ info.formats.getD [] ∧ keepFormat f = true ∧ e = mkFormatEntry f)
    ∧ (info.description = none → (get_video_info url info).description = "")
    ∧ (info.description = some "" → (get_video_info url info).description = "")
    ∧ (∀ str, info.description = some str → ¬ str = "" →
        (get_video_info url info).description = strTake str 200 ++ "...") := by
  refine ⟨?_, ?_, ?_, ?_, ?_⟩
  · show ((((info.formats.getD []).filter keepFormat).map mkFormatEntry).take 20).length ≤ 20
    exact List.length_take_le 20 _
  · intro e he
    have he2 := List.mem_of_mem_take he
    obtain ⟨f, hf, rfl⟩ := List.mem_map.mp he2
    obtain ⟨hf1, hf2⟩ := List.mem_filter.mp hf
    exact ⟨f, hf1, hf2, rfl⟩
  · intro h; simp [get_video_info, h]
  · intro h; simp [get_video_info, h]
  · intro str h hne; simp [get_video_info, h, hne]

/-- Witness for the amended C9 theorem at a concrete raw info dict. -/
theorem info_success_shape_witness :
    (get_video_info "u"
      ⟨none, none, none, none, none, some "Short", none, none, none⟩).formats.length ≤ 20
    ∧ (get_video_info "u"
      ⟨none, none, none, none, none, some "Short", none, none, none⟩).description
        = "Short..." := by
  have h := info_success_shape "u"
    ⟨none, none, none, none, none, some "Short", none, none, none⟩
  refine ⟨h.1, ?_⟩
  have h5 := h.2.2.2.2 "Short" rfl (by decide)
  exact h5.trans (by decide)

/-- Claim C10 (counterexample): nothing clamps the hook arithmetic — a
downloading callback with `downloaded_bytes` exceeding a known
`total_bytes` drives progress to 200, outside [0, 100]. -/
theorem progress_bound_counterexample :
    (runW initProgress
      [WEvent.hook ⟨"downloading", 2, some 1, none, "", none⟩]).progress = 200
    ∧ ¬ (runW initProgress
      [WEvent.hook ⟨"downloading", 2, some 1, none, "", none⟩]).progress ≤ 100 := by
  with_unfolding_all decide

/-- Claim C10 (amended): for every sequence of worker transitions whose
downloading callbacks are sane — downloaded count between 0 and any
known nonzero total, percent strings parsing (if at all) into [0, 100] —
the record progress stays within [0, 100] after every completed
transition. -/
theorem progress_bounded_under_sane_inputs (es : List WEvent)
    (h : ∀ e ∈ es, goodEvent e) :
    0 ≤ (runW initProgress es).progress
    ∧ (runW initProgress es).progress ≤ 100 := by
  refine runW_bounds es initProgress ⟨?_, ?_⟩ h
  · show (0 : ℚ) ≤ 0
    norm_num
  · show (0 : ℚ) ≤ 100
    norm_num

/-- Witness for the amended C10 theorem at a concrete sane run. -/
theorem progress_bounded_witness :
    0 ≤ (runW initProgress
      [WEvent.hook ⟨"downloading", 50, some 100, none, "", none⟩]).progress
    ∧ (runW initProgress
      [WEvent.hook ⟨"downloading", 50, some 100, none, "", none⟩]).progress ≤ 100 := by
  apply progress_bounded_under_sane_inputs
  intro e hee
  simp only [List.mem_singleton] at hee
  subst hee
  constructor
  · intro t ht ht0
    have ht' : some (100 : ℚ) = some t := ht
    have : t = 100 := (Option.some.inj ht').symm
    subst this
    norm_num
  · intro ps q hps hq
    exact absurd hps (by simp)
